import Mathlib

/-!
Verification of the Localis Windows launcher (src/launcher_windows.py).

The launcher is modelled as pure functions over explicit oracles:
a subprocess invocation is a value of `RunOutcome` supplied by an oracle
function, filesystem existence checks are boolean oracle fields, and the
launcher's own decisions (configuration resolution, runtime lookup,
repository synchronization, dependency installation, port probing and the
fatal/non-fatal policy of `main`) are translated directly from the source.
The model of `main` covers the run from configuration resolution up to the
launch of the server process; logging calls, directory creation and the
post-launch supervision loop carry no decision logic relevant to the
properties proved here and are not modelled.
-/

namespace Localis

/-- Result of one `subprocess.run` invocation: a completed process with an
exit code and captured output streams, a `TimeoutExpired`, or some other
raised exception carrying a message. -/
inductive RunOutcome where
  | completed (exitCode : Int) (stdout stderr : String)
  | timedOut
  | raised (msg : String)
deriving DecidableEq, Repr

/-- A subprocess outcome counts as success when it completed with exit code 0. -/
def isZeroExit : RunOutcome → Bool
  | .completed c _ _ => c == 0
  | .timedOut => false
  | .raised _ => false

/-- The effective configuration dictionary produced by `load_config`: the
recognized keys of `localis_runtime_config.json`, each possibly absent.
A missing or malformed config file yields the all-absent dictionary. -/
structure ConfigFile where
  app_repo_url : Option String := none
  repo_url : Option String := none
  app_branch : Option String := none
  branch : Option String := none
  host : Option String := none
  port : Option Int := none
deriving DecidableEq, Repr

/-- The built-in default repository URL hard-coded in `main`
(the second argument of `config.get` on the `repo_url` key). -/
def defaultRepoUrl : String := "https://github.com/yourusername/localis-app.git"

/-- Python `a or rest` on an optional string `a`: `rest` when `a` is absent
or empty (falsy), otherwise the value of `a`. -/
def pyOrStr (a : Option String) (rest : String) : String :=
  match a with
  | none => rest
  | some s => if s = "" then rest else s

/-- Line 484 of `main`:
`os.getenv('LOCALIS_APP_REPO_URL') or config.get('app_repo_url') or config.get('repo_url', DEFAULT)`. -/
def resolveRepoUrl (env : Option String) (cfg : ConfigFile) : String :=
  pyOrStr env (pyOrStr cfg.app_repo_url (cfg.repo_url.getD defaultRepoUrl))

/-- Line 488 of `main`:
`os.getenv('LOCALIS_APP_BRANCH') or config.get('app_branch') or config.get('branch', 'main')`. -/
def resolveBranch (env : Option String) (cfg : ConfigFile) : String :=
  pyOrStr env (pyOrStr cfg.app_branch (cfg.branch.getD "main"))

/-- Line 492 of `main`:
`os.getenv('LOCALIS_HOST') or config.get('host', '127.0.0.1')`. -/
def resolveHost (env : Option String) (cfg : ConfigFile) : String :=
  pyOrStr env (cfg.host.getD "127.0.0.1")

/-- Value of a non-empty all-digit character list, `none` otherwise. -/
def digitsVal (l : List Char) : Option Nat :=
  if l ≠ [] ∧ l.all Char.isDigit then
    some (l.foldl (fun n c => n * 10 + (c.toNat - '0'.toNat)) 0)
  else none

/-- Model of Python `int(...)` on a string: an optional sign followed by
at least one decimal digit parses to the signed value; anything else is a
`ValueError`, modelled as `none`. -/
def pyInt? (s : String) : Option Int :=
  match s.data with
  | '-' :: rest => (digitsVal rest).map (fun n => -(n : Int))
  | '+' :: rest => (digitsVal rest).map (fun n => (n : Int))
  | l => (digitsVal l).map (fun n => (n : Int))

/-- Line 494 of `main`:
`int(os.getenv('LOCALIS_PORT', 0)) or config.get('port', 8000)`.
An unset variable yields the int 0 directly; a set variable is parsed by
`int(...)`, which raises `ValueError` (modelled as `.error`) on a
non-numeric string; a parsed 0 is falsy and falls through to the config
value or the default 8000. -/
def resolvePort (env : Option String) (cfg : ConfigFile) : Except String Int :=
  match env with
  | none => .ok (cfg.port.getD 8000)
  | some s =>
    match pyInt? s with
    | none => .error ("invalid literal for int(): " ++ s)
    | some n => .ok (if n = 0 then cfg.port.getD 8000 else n)

/-- Model of `find_bundled_python` (lines 32-71): probe
`install_root/runtime/python/python.exe`, then
`bundle_root/runtime/python/python.exe` when a bundle root is given,
returning the first candidate that exists; otherwise fall back to
`sys.executable` only when not frozen, and return `None` when frozen.
`fsExists` is the filesystem existence oracle (`Path.exists`). -/
def find_bundled_python (installRoot : String) (bundleRoot : Option String)
    (isFrozen : Bool) (fsExists : String → Bool) (sysExecutable : String) :
    Option String :=
  let candidates :=
    [installRoot ++ "/runtime/python/python.exe"] ++
      (match bundleRoot with
       | some b => [b ++ "/runtime/python/python.exe"]
       | none => [])
  match candidates.find? fsExists with
  | some p => some p
  | none => if !isFrozen then some sysExecutable else none

/-- Model of `find_bundled_git` (lines 74-120): probe
`install_root/runtime/git/bin/git.exe`, then
`bundle_root/runtime/git/bin/git.exe`, returning the first that exists;
otherwise probe the system PATH by running `git --version` and return the
literal `"git"` exactly on a clean zero exit.  `probe` is the outcome of
that `subprocess.run`; `.timedOut` and `.raised` model the
`TimeoutExpired` and `FileNotFoundError` cases caught by the source, both
of which fall through to `None`, as does a non-zero exit. -/
def find_bundled_git (installRoot : String) (bundleRoot : Option String)
    (fsExists : String → Bool) (probe : RunOutcome) : Option String :=
  let candidates :=
    [installRoot ++ "/runtime/git/bin/git.exe"] ++
      (match bundleRoot with
       | some b => [b ++ "/runtime/git/bin/git.exe"]
       | none => [])
  match candidates.find? fsExists with
  | some p => some p
  | none =>
    match probe with
    | .completed c _ _ => if c = 0 then some "git" else none
    | .timedOut => none
    | .raised _ => none

/-- One git subprocess invocation issued by `clone_or_update_repo`,
identified by its sub-command and arguments. -/
inductive GitCmd where
  | clone (repoUrl branchName target : String)
  | fetchPrune (dir : String)
  | checkoutBranch (dir branchName : String)
  | pullFfOnly (dir : String)
deriving DecidableEq, Repr

/-- The error-log label the source attaches to a failing git sub-step. -/
def failLabel : GitCmd → String
  | .clone _ _ _ => "Git clone failed: "
  | .fetchPrune _ => "Git fetch failed: "
  | .checkoutBranch _ _ => "Git checkout failed: "
  | .pullFfOnly _ => "Git pull failed: "

/-- What `clone_or_update_repo`'s try-block produces before the exception
handlers run: a returned boolean with the diagnostic logged on its way out,
or a thrown exception (`timeout = true` for `TimeoutExpired`). -/
inductive BodyOutcome where
  | ret (b : Bool) (diag : Option String)
  | thrown (timeout : Bool) (msg : String)
deriving DecidableEq, Repr

/-- The try-block of `clone_or_update_repo` (lines 136-203), paired with
the list of git subprocesses actually spawned, in order.  `run` is the
subprocess oracle; `appDirExists` and `gitDirExists` are the
`app_dir.exists()` and `(app_dir / '.git').exists()` checks. -/
def cloneOrUpdateBody (run : GitCmd → RunOutcome) (appDirExists gitDirExists : Bool)
    (repoUrl branchName appDir : String) : BodyOutcome × List GitCmd :=
  if !appDirExists then
    match run (.clone repoUrl branchName appDir) with
    | .completed code _ err =>
        if code ≠ 0 then
          (.ret false (some ("Git clone failed: " ++ err)), [.clone repoUrl branchName appDir])
        else
          (.ret true none, [.clone repoUrl branchName appDir])
    | .timedOut => (.thrown true "", [.clone repoUrl branchName appDir])
    | .raised m => (.thrown false m, [.clone repoUrl branchName appDir])
  else if !gitDirExists then
    (.ret false (some (appDir ++ " exists but is not a git repository")), [])
  else
    match run (.fetchPrune appDir) with
    | .completed code _ err =>
      if code ≠ 0 then
        (.ret false (some ("Git fetch failed: " ++ err)), [.fetchPrune appDir])
      else
        match run (.checkoutBranch appDir branchName) with
        | .completed code2 _ err2 =>
          if code2 ≠ 0 then
            (.ret false (some ("Git checkout failed: " ++ err2)),
             [.fetchPrune appDir, .checkoutBranch appDir branchName])
          else
            match run (.pullFfOnly appDir) with
            | .completed code3 _ err3 =>
              if code3 ≠ 0 then
                (.ret false (some ("Git pull failed: " ++ err3)),
                 [.fetchPrune appDir, .checkoutBranch appDir branchName, .pullFfOnly appDir])
              else
                (.ret true none,
                 [.fetchPrune appDir, .checkoutBranch appDir branchName, .pullFfOnly appDir])
            | .timedOut =>
              (.thrown true "",
               [.fetchPrune appDir, .checkoutBranch appDir branchName, .pullFfOnly appDir])
            | .raised m =>
              (.thrown false m,
               [.fetchPrune appDir, .checkoutBranch appDir branchName, .pullFfOnly appDir])
        | .timedOut => (.thrown true "", [.fetchPrune appDir, .checkoutBranch appDir branchName])
        | .raised m => (.thrown false m, [.fetchPrune appDir, .checkoutBranch appDir branchName])
    | .timedOut => (.thrown true "", [.fetchPrune appDir])
    | .raised m => (.thrown false m, [.fetchPrune appDir])

/-- The observable interface of one `clone_or_update_repo` call: the
returned boolean, the git subprocesses spawned, and the diagnostic the
call logged when it failed. -/
structure CloneResult where
  result : Bool
  trace : List GitCmd
  diag : Option String
deriving DecidableEq, Repr

/-- Model of `clone_or_update_repo` (lines 123-210): the try-block together with
its two exception handlers, which convert `TimeoutExpired` and any other
exception into a `False` return with the corresponding logged message. -/
def clone_or_update_repo (run : GitCmd → RunOutcome) (appDirExists gitDirExists : Bool)
    (repoUrl branchName appDir : String) : CloneResult :=
  match cloneOrUpdateBody run appDirExists gitDirExists repoUrl branchName appDir with
  | (.ret b d, tr) => ⟨b, tr, d⟩
  | (.thrown true _, tr) => ⟨false, tr, some "Git operation timed out"⟩
  | (.thrown false m, tr) => ⟨false, tr, some ("Git operation failed: " ++ m)⟩

/-- The three-step update sequence the source runs on a tracked checkout,
in source order: fetch with pruning, checkout of the branch, then a
fast-forward-only pull. -/
def updateSteps (appDir branchName : String) : List GitCmd :=
  [.fetchPrune appDir, .checkoutBranch appDir branchName, .pullFfOnly appDir]

/-- The commands actually executed from a planned sequence: every command
up to and including the first whose outcome is not a zero exit. -/
def execUpTo (run : GitCmd → RunOutcome) : List GitCmd → List GitCmd
  | [] => []
  | c :: cs => if isZeroExit (run c) then c :: execUpTo run cs else [c]

/-- The diagnostic produced by the first failing command of a planned
sequence, matching the per-step error logs and the exception handlers of
the source; `none` when every command exits zero. -/
def firstFailDiag (run : GitCmd → RunOutcome) : List GitCmd → Option String
  | [] => none
  | c :: cs =>
    if isZeroExit (run c) then firstFailDiag run cs
    else
      match run c with
      | .completed _ _ err => some (failLabel c ++ err)
      | .timedOut => some "Git operation timed out"
      | .raised m => some ("Git operation failed: " ++ m)

/-- A subprocess spawned by `main` outside of the git synchronizer:
either one of the git commands above, or the pip invocation
`python -m pip install -r <reqFile> --quiet --disable-pip-version-check`. -/
inductive Spawn where
  | git (c : GitCmd)
  | pip (pythonExe reqFile : String)
deriving DecidableEq, Repr

/-- True when the spawn is a git subprocess. -/
def Spawn.isGit : Spawn → Bool
  | .git _ => true
  | .pip _ _ => false

/-- Model of `install_dependencies` (lines 213-255): a missing `requirements.txt`
returns `True` without spawning anything; otherwise pip is run and the
call returns `True` exactly on a zero exit, with `TimeoutExpired` and any
other exception caught and converted into `False`.  The second component
is the list of subprocesses spawned. -/
def install_dependencies (pythonExe appDir : String) (reqExists : Bool)
    (pipRun : RunOutcome) : Bool × List Spawn :=
  if !reqExists then (true, [])
  else
    match pipRun with
    | .completed code _ _ => (code == 0, [.pip pythonExe (appDir ++ "/requirements.txt")])
    | .timedOut => (false, [.pip pythonExe (appDir ++ "/requirements.txt")])
    | .raised _ => (false, [.pip pythonExe (appDir ++ "/requirements.txt")])

/-- The loop of `find_available_port`: starting at `p` with `n` attempts
left, return the first port the bind oracle accepts, or `none` when the
attempts are exhausted. -/
def findPortLoop (canBind : Int → Bool) : Int → Nat → Option Int
  | _, 0 => none
  | p, n + 1 => if canBind p then some p else findPortLoop canBind (p + 1) n

/-- Model of `find_available_port` (lines 258-282): probe
`start, start+1, ...` for `maxAttempts` ports, returning the first that
binds; raise `LauncherError` (modelled as `.error` with the source's
message) when none does.  `canBind` is the socket-bind oracle; a bind
failure is the `OSError` the source catches and skips. -/
def find_available_port (canBind : Int → Bool) (start : Int) (maxAttempts : Nat) :
    Except String Int :=
  match findPortLoop canBind start maxAttempts with
  | some p => .ok p
  | none =>
    .error ("No available ports in range " ++ toString start ++ "-"
      ++ toString (start + (maxAttempts : Int)))

/-- The phases of `main` that complete before the model stops at the
server launch.  `skipSync` is the warning branch taken when git is absent
but the app directory exists; `warnContinue` is the warning branch taken
when synchronization failed but the app directory still exists. -/
inductive Phase where
  | config | python | gitLookup | sync | skipSync | warnContinue | deps | port | launch
deriving DecidableEq, Repr

/-- How the modelled portion of `main` ends: a `LauncherError` caught at
top level (`fatal`), a non-`LauncherError` exception caught at top level
(`crashed`) — both of which exit with code 1 — or the server launch with
the effective configuration values. -/
inductive Outcome where
  | fatal (msg : String)
  | crashed (msg : String)
  | launched (repoUrl branchName hostName : String) (port : Int)
deriving DecidableEq, Repr

/-- The process exit code implied by an outcome: both exception paths of
`main` end in `sys.exit(1)`; after a launch the launcher is still running. -/
def outcomeExitCode : Outcome → Option Nat
  | .fatal _ => some 1
  | .crashed _ => some 1
  | .launched _ _ _ _ => none

/-- The observable result of the modelled portion of `main`: its ending,
the phases completed in order, and the subprocesses spawned in order. -/
structure MainResult where
  outcome : Outcome
  phases : List Phase
  spawned : List Spawn
deriving DecidableEq, Repr

/-- The environment and filesystem state one run of `main` observes.
Option fields model `os.getenv` results; the oracle functions model
filesystem existence checks and subprocess outcomes.  `appDirExists` is
the `app_dir.exists()` value at the pre-sync checks, and
`appDirExistsAfter` the re-check performed after a failed sync. -/
structure World where
  envRepo : Option String := none
  envBranch : Option String := none
  envHost : Option String := none
  envPort : Option String := none
  cfg : ConfigFile := {}
  installRoot : String := "install"
  bundleRoot : Option String := none
  isFrozen : Bool := false
  sysExecutable : String := "python"
  fsExists : String → Bool := fun _ => false
  gitProbe : RunOutcome := .completed 0 "" ""
  appDirExists : Bool := false
  appDirExistsAfter : Bool := false
  gitDirExists : Bool := false
  gitRun : GitCmd → RunOutcome := fun _ => .completed 0 "" ""
  reqExists : Bool := false
  pipRun : RunOutcome := .completed 0 "" ""
  canBind : Int → Bool := fun _ => true

/-- The app checkout directory, `install_root / 'app'`. -/
def appDirOf (w : World) : String := w.installRoot ++ "/app"

/-- The diagnostic of the `LauncherError` raised when no Python runtime
is found (lines 500-505). -/
def pythonNotFoundMsg : String :=
  "Python runtime not found. Expected bundled Python at runtime/python/python.exe. Cannot fall back to system Python in frozen executable."

/-- The diagnostic of the `LauncherError` raised when git is absent and
the app directory does not exist (lines 521-526). -/
def gitAndAppMissingMsg : String :=
  "Git not found and app directory does not exist. Cannot clone repository on first run. Please ensure Git is bundled or app/ is pre-installed."

/-- The diagnostic of the `LauncherError` raised when synchronization
failed and no app directory exists afterwards (line 534). -/
def repoUnavailableMsg : String := "Repository unavailable and no local copy exists"

/-- The tail of `main` from the dependency-install step onwards
(lines 540-553): run `install_dependencies` (its boolean result only
feeds a warning), then `find_available_port` with 10 attempts — whose
`LauncherError` is re-raised, hence fatal — then launch the server. -/
def finishLaunch (w : World) (repoUrl branchName hostName : String) (portStart : Int)
    (pythonExe : String) (phases0 : List Phase) (spawned0 : List Spawn) : MainResult :=
  match find_available_port w.canBind portStart 10 with
  | .error msg =>
    ⟨.fatal msg, phases0 ++ [.deps],
     spawned0 ++ (install_dependencies pythonExe (appDirOf w) w.reqExists w.pipRun).2⟩
  | .ok p =>
    ⟨.launched repoUrl branchName hostName p, phases0 ++ [.deps, .port, .launch],
     spawned0 ++ (install_dependencies pythonExe (appDirOf w) w.reqExists w.pipRun).2⟩

/-- The modelled portion of `main` (lines 441-553): configuration
resolution, Python and git lookup, the git-absence policy, repository
synchronization with its fatal/non-fatal handling, dependency
installation, port selection and the server launch. -/
def mainRun (w : World) : MainResult :=
  match resolvePort w.envPort w.cfg with
  | .error e => ⟨.crashed e, [], []⟩
  | .ok portStart =>
    match find_bundled_python w.installRoot w.bundleRoot w.isFrozen w.fsExists w.sysExecutable with
    | none => ⟨.fatal pythonNotFoundMsg, [.config], []⟩
    | some pythonExe =>
      match find_bundled_git w.installRoot w.bundleRoot w.fsExists w.gitProbe with
      | none =>
        if !w.appDirExists then
          ⟨.fatal gitAndAppMissingMsg, [.config, .python, .gitLookup], []⟩
        else
          finishLaunch w (resolveRepoUrl w.envRepo w.cfg) (resolveBranch w.envBranch w.cfg)
            (resolveHost w.envHost w.cfg) portStart pythonExe
            [.config, .python, .gitLookup, .skipSync] []
      | some _ =>
        match clone_or_update_repo w.gitRun w.appDirExists w.gitDirExists
            (resolveRepoUrl w.envRepo w.cfg) (resolveBranch w.envBranch w.cfg) (appDirOf w) with
        | ⟨true, tr, _⟩ =>
          finishLaunch w (resolveRepoUrl w.envRepo w.cfg) (resolveBranch w.envBranch w.cfg)
            (resolveHost w.envHost w.cfg) portStart pythonExe
            [.config, .python, .gitLookup, .sync] (tr.map Spawn.git)
        | ⟨false, tr, _⟩ =>
          if !w.appDirExistsAfter then
            ⟨.fatal repoUnavailableMsg, [.config, .python, .gitLookup, .sync], tr.map Spawn.git⟩
          else
            finishLaunch w (resolveRepoUrl w.envRepo w.cfg) (resolveBranch w.envBranch w.cfg)
              (resolveHost w.envHost w.cfg) portStart pythonExe
              [.config, .python, .gitLookup, .sync, .warnContinue] (tr.map Spawn.git)

/-- Clone path of the synchronizer: when the target directory does not
exist, exactly one subprocess (the shallow single-branch clone) is
spawned and the call succeeds exactly on its zero exit. -/
theorem cloneOrUpdate_clone_eq (run : GitCmd → RunOutcome) (gE : Bool) (u b d : String) :
    clone_or_update_repo run false gE u b d =
      ⟨isZeroExit (run (.clone u b d)), [.clone u b d], firstFailDiag run [.clone u b d]⟩ := by
  cases h1 : run (GitCmd.clone u b d) with
  | completed c1 o1 e1 =>
    rcases eq_or_ne c1 0 with hc1 | hc1
    · subst hc1
      simp [clone_or_update_repo, cloneOrUpdateBody, firstFailDiag, isZeroExit, h1]
    · simp [clone_or_update_repo, cloneOrUpdateBody, firstFailDiag, isZeroExit, failLabel,
        h1, hc1]
  | timedOut =>
    simp [clone_or_update_repo, cloneOrUpdateBody, firstFailDiag, isZeroExit, h1]
  | raised m =>
    simp [clone_or_update_repo, cloneOrUpdateBody, firstFailDiag, isZeroExit, h1]

/-- Untracked-directory path of the synchronizer: refusal with no
subprocess spawned. -/
theorem cloneOrUpdate_untracked_eq (run : GitCmd → RunOutcome) (u b d : String) :
    clone_or_update_repo run true false u b d =
      ⟨false, [], some (d ++ " exists but is not a git repository")⟩ := rfl

/-- Tracked-checkout path of the synchronizer: the call's result, spawn
trace and diagnostic are determined by the planned fetch-checkout-pull
sequence and the first failing step in it. -/
theorem cloneOrUpdate_tracked_eq (run : GitCmd → RunOutcome) (u b d : String) :
    clone_or_update_repo run true true u b d =
      ⟨(updateSteps d b).all (fun c => isZeroExit (run c)),
       execUpTo run (updateSteps d b),
       firstFailDiag run (updateSteps d b)⟩ := by
  cases h1 : run (GitCmd.fetchPrune d) with
  | completed c1 o1 e1 =>
    rcases eq_or_ne c1 0 with hc1 | hc1
    · subst hc1
      cases h2 : run (GitCmd.checkoutBranch d b) with
      | completed c2 o2 e2 =>
        rcases eq_or_ne c2 0 with hc2 | hc2
        · subst hc2
          cases h3 : run (GitCmd.pullFfOnly d) with
          | completed c3 o3 e3 =>
            rcases eq_or_ne c3 0 with hc3 | hc3
            · subst hc3
              simp [clone_or_update_repo, cloneOrUpdateBody, updateSteps, execUpTo,
                firstFailDiag, isZeroExit, h1, h2, h3]
            · simp [clone_or_update_repo, cloneOrUpdateBody, updateSteps, execUpTo,
                firstFailDiag, isZeroExit, failLabel, h1, h2, h3, hc3]
          | timedOut =>
            simp [clone_or_update_repo, cloneOrUpdateBody, updateSteps, execUpTo,
              firstFailDiag, isZeroExit, h1, h2, h3]
          | raised m =>
            simp [clone_or_update_repo, cloneOrUpdateBody, updateSteps, execUpTo,
              firstFailDiag, isZeroExit, h1, h2, h3]
        · simp [clone_or_update_repo, cloneOrUpdateBody, updateSteps, execUpTo,
            firstFailDiag, isZeroExit, failLabel, h1, h2, hc2]
      | timedOut =>
        simp [clone_or_update_repo, cloneOrUpdateBody, updateSteps, execUpTo,
          firstFailDiag, isZeroExit, h1, h2]
      | raised m =>
        simp [clone_or_update_repo, cloneOrUpdateBody, updateSteps, execUpTo,
          firstFailDiag, isZeroExit, h1, h2]
    · simp [clone_or_update_repo, cloneOrUpdateBody, updateSteps, execUpTo,
        firstFailDiag, isZeroExit, failLabel, h1, hc1]
  | timedOut =>
    simp [clone_or_update_repo, cloneOrUpdateBody, updateSteps, execUpTo,
      firstFailDiag, isZeroExit, h1]
  | raised m =>
    simp [clone_or_update_repo, cloneOrUpdateBody, updateSteps, execUpTo,
      firstFailDiag, isZeroExit, h1]

/-- The executed part of a planned command sequence passes the
all-steps-zero test exactly when the whole plan does. -/
theorem execUpTo_all (run : GitCmd → RunOutcome) (l : List GitCmd) :
    (execUpTo run l).all (fun c => isZeroExit (run c))
      = l.all (fun c => isZeroExit (run c)) := by
  induction l with
  | nil => rfl
  | cons c cs ih =>
    cases hb : isZeroExit (run c)
    · simp [execUpTo, hb]
    · simp [execUpTo, hb, ih]

/-- C2: on a tracked checkout (target directory exists and contains
`.git`), `clone_or_update_repo` spawns exactly the commands
fetch-with-prune, checkout of the requested branch, fast-forward-only
pull, in that order, stopping at the first step that does not exit zero;
it returns `true` exactly when all three exit zero, and on failure the
logged diagnostic is the failing step's. -/
theorem c2_tracked_update_sequence (run : GitCmd → RunOutcome) (u b d : String) :
    clone_or_update_repo run true true u b d =
      ⟨(updateSteps d b).all (fun c => isZeroExit (run c)),
       execUpTo run (updateSteps d b),
       firstFailDiag run (updateSteps d b)⟩ :=
  cloneOrUpdate_tracked_eq run u b d

/-- C3: when the target directory exists but has no `.git` metadata
directory, `clone_or_update_repo` returns failure, spawns no git
subprocess at all (the spawn trace is empty, so nothing in the directory
is created, deleted or modified), and logs the refusal message. -/
theorem c3_untracked_directory_untouched (run : GitCmd → RunOutcome) (u b d : String) :
    clone_or_update_repo run true false u b d =
      ⟨false, [], some (d ++ " exists but is not a git repository")⟩ :=
  cloneOrUpdate_untracked_eq run u b d

/-- C9: `clone_or_update_repo` is total at its interface: it returns
`true` exactly when it did not take the untracked-directory refusal and
every subprocess it spawned completed with exit code zero — so a
non-zero exit, a timeout, or any other subprocess exception yields
`false` — and whenever its try-block ends in a thrown exception the
handlers convert it into a `false` return. -/
theorem c9_clone_or_update_total (run : GitCmd → RunOutcome) (aE gE : Bool) (u b d : String) :
    ((clone_or_update_repo run aE gE u b d).result
      = ((!(aE && !gE))
          && (clone_or_update_repo run aE gE u b d).trace.all (fun c => isZeroExit (run c))))
    ∧ ∀ t m tr, cloneOrUpdateBody run aE gE u b d = (.thrown t m, tr) →
        (clone_or_update_repo run aE gE u b d).result = false := by
  constructor
  · cases aE
    · rw [cloneOrUpdate_clone_eq]
      simp
    · cases gE
      · rw [cloneOrUpdate_untracked_eq]
        simp
      · rw [cloneOrUpdate_tracked_eq]
        simp [execUpTo_all]
  · intro t m tr h
    unfold clone_or_update_repo
    rw [h]
    cases t <;> rfl

/-- Witness for C9 at a concrete input: a synchronizer call whose clone
subprocess times out returns `false`. -/
theorem c9_witness :
    (clone_or_update_repo (fun _ => RunOutcome.timedOut) false false "u" "b" "d").result
      = false :=
  (c9_clone_or_update_total (fun _ => RunOutcome.timedOut) false false "u" "b" "d").2 true ""
    [GitCmd.clone "u" "b" "d"] rfl

/-- The port loop returns `some p` exactly when `p` is in the probed
range, binds, and every earlier port in the range fails to bind. -/
theorem findPortLoop_some_iff (canBind : Int → Bool) (n : Nat) (s p : Int) :
    findPortLoop canBind s n = some p ↔
      (canBind p = true ∧ s ≤ p ∧ p < s + (n : Int)
        ∧ ∀ q, s ≤ q → q < p → canBind q = false) := by
  induction n generalizing s with
  | zero =>
    simp only [findPortLoop]
    constructor
    · intro h
      exact Option.noConfusion h
    · rintro ⟨h1, h2, h3, h4⟩
      omega
  | succ n ih =>
    simp only [findPortLoop]
    cases hb : canBind s
    · rw [if_neg (by simp [hb]), ih (s + 1)]
      constructor
      · rintro ⟨h1, h2, h3, h4⟩
        refine ⟨h1, by omega, by omega, ?_⟩
        intro q hq1 hq2
        rcases eq_or_lt_of_le hq1 with hq | hq
        · rw [← hq]
          exact hb
        · exact h4 q (by omega) hq2
      · rintro ⟨h1, h2, h3, h4⟩
        have hsp : s ≠ p := by
          intro he
          rw [he] at hb
          rw [h1] at hb
          exact Bool.noConfusion hb
        refine ⟨h1, by omega, by omega, ?_⟩
        intro q hq1 hq2
        exact h4 q (by omega) hq2
    · rw [if_pos (by simp [hb])]
      constructor
      · intro h
        have hp : s = p := Option.some.inj h
        subst hp
        exact ⟨hb, le_refl s, by omega, fun q hq1 hq2 => absurd hq1 (by omega)⟩
      · rintro ⟨h1, h2, h3, h4⟩
        rcases eq_or_lt_of_le h2 with hq | hq
        · rw [hq]
        · have := h4 s (le_refl s) hq
          rw [hb] at this
          exact Bool.noConfusion this

/-- The port loop exhausts exactly when every port in the probed range
fails to bind. -/
theorem findPortLoop_none_iff (canBind : Int → Bool) (n : Nat) (s : Int) :
    findPortLoop canBind s n = none ↔
      ∀ q, s ≤ q → q < s + (n : Int) → canBind q = false := by
  induction n generalizing s with
  | zero =>
    simp only [findPortLoop]
    constructor
    · intro _ q h1 h2
      omega
    · intro _
      trivial
  | succ n ih =>
    simp only [findPortLoop]
    cases hb : canBind s
    · rw [if_neg (by simp [hb]), ih (s + 1)]
      constructor
      · intro h q hq1 hq2
        rcases eq_or_lt_of_le hq1 with hq | hq
        · rw [← hq]
          exact hb
        · exact h q (by omega) (by omega)
      · intro h q hq1 hq2
        exact h q (by omega) (by omega)
    · rw [if_pos (by simp [hb])]
      constructor
      · intro h
        exact Option.noConfusion h
      · intro h
        have := h s (le_refl s) (by omega)
        rw [hb] at this
        exact Bool.noConfusion this

/-- C8: `find_available_port` returns exactly the smallest port of the
probed range `[start, start + maxAttempts)` that the bind oracle accepts,
and reports the no-ports-available error — rather than returning any
port — exactly when every port in the range fails to bind. -/
theorem c8_find_available_port_least (canBind : Int → Bool) (start : Int) (maxAttempts : Nat) :
    (∀ p, find_available_port canBind start maxAttempts = .ok p ↔
        (canBind p = true ∧ start ≤ p ∧ p < start + (maxAttempts : Int)
          ∧ ∀ q, start ≤ q → q < p → canBind q = false))
    ∧ (find_available_port canBind start maxAttempts
          = .error ("No available ports in range " ++ toString start ++ "-"
              ++ toString (start + (maxAttempts : Int)))
        ↔ ∀ q, start ≤ q → q < start + (maxAttempts : Int) → canBind q = false) := by
  constructor
  · intro p
    rw [← findPortLoop_some_iff canBind maxAttempts start p]
    unfold find_available_port
    cases hl : findPortLoop canBind start maxAttempts <;> simp [hl]
  · rw [← findPortLoop_none_iff canBind maxAttempts start]
    unfold find_available_port
    cases hl : findPortLoop canBind start maxAttempts <;> simp [hl]

/-- Witness for C8 at a concrete input: with every port bindable, the
probe starting at 8000 returns 8000. -/
theorem c8_witness : find_available_port (fun _ => true) 8000 10 = .ok 8000 :=
  ((c8_find_available_port_least (fun _ => true) 8000 10).1 8000).mpr
    ⟨rfl, le_refl _, by omega, fun q h1 h2 => by omega⟩

/-- The interpreter search policy in the words of the specification:
probe the install-root candidate, then the bundle-root candidate when a
bundle root is given, returning the first existing; otherwise the
currently-executing interpreter exactly when not frozen, absent when
frozen. -/
def findInterpreterSpec (installRoot : String) (bundleRoot : Option String)
    (isFrozen : Bool) (fsExists : String → Bool) (sysExecutable : String) : Option String :=
  if fsExists (installRoot ++ "/runtime/python/python.exe") then
    some (installRoot ++ "/runtime/python/python.exe")
  else
    match bundleRoot with
    | some b =>
      if fsExists (b ++ "/runtime/python/python.exe") then
        some (b ++ "/runtime/python/python.exe")
      else if isFrozen then none else some sysExecutable
    | none => if isFrozen then none else some sysExecutable

/-- C6: `find_bundled_python` implements exactly the specified search
policy: install-root candidate first, then the bundle-root candidate only
when a bundle root is given, first existing candidate wins; with no
existing candidate it falls back to the running interpreter if and only
if not frozen, and returns `none` when frozen. -/
theorem c6_find_bundled_python_policy (installRoot : String) (bundleRoot : Option String)
    (isFrozen : Bool) (fsExists : String → Bool) (sysExecutable : String) :
    find_bundled_python installRoot bundleRoot isFrozen fsExists sysExecutable
      = findInterpreterSpec installRoot bundleRoot isFrozen fsExists sysExecutable := by
  unfold find_bundled_python findInterpreterSpec
  cases bundleRoot with
  | none =>
    cases h1 : fsExists (installRoot ++ "/runtime/python/python.exe") <;>
      cases isFrozen <;> simp [List.find?, h1]
  | some b =>
    cases h1 : fsExists (installRoot ++ "/runtime/python/python.exe") <;>
      cases h2 : fsExists (b ++ "/runtime/python/python.exe") <;>
        cases isFrozen <;> simp [List.find?, h1, h2]

/-- First truthy (present and non-empty) value in a prioritized list of
optional sources, with a final fallback value.  Used to state the amended
resolution policy in the specification's own shape. -/
def firstTruthy (xs : List (Option String)) (dflt : String) : String :=
  match xs with
  | [] => dflt
  | x :: rest =>
    match x with
    | some s => if s = "" then firstTruthy rest dflt else s
    | none => firstTruthy rest dflt

/-- Amended repo-URL policy: first truthy of the environment variable and
the preferred config key, else the fallback config key's value whenever
present (truthy or not), else the built-in default. -/
def repoUrlSpec (env : Option String) (cfg : ConfigFile) : String :=
  firstTruthy [env, cfg.app_repo_url] (cfg.repo_url.getD defaultRepoUrl)

/-- Amended branch policy, analogous to the repo-URL policy. -/
def branchSpec (env : Option String) (cfg : ConfigFile) : String :=
  firstTruthy [env, cfg.app_branch] (cfg.branch.getD "main")

/-- Amended host policy: the environment value when truthy, else the
config value whenever the key is present, else the loopback default. -/
def hostSpec (env : Option String) (cfg : ConfigFile) : String :=
  firstTruthy [env] (cfg.host.getD "127.0.0.1")

/-- Amended port policy: the environment value when it parses to a
nonzero integer; a parse failure on a set variable is an error; a parsed
zero or an unset variable falls back to the config value or 8000. -/
def portSpec (env : Option String) (cfg : ConfigFile) : Except String Int :=
  match env with
  | none => .ok (cfg.port.getD 8000)
  | some s =>
    match pyInt? s with
    | none => .error ("invalid literal for int(): " ++ s)
    | some n => if n = 0 then .ok (cfg.port.getD 8000) else .ok n

/-- C5 counterexample: two configuration fields where the environment
variable is set yet the resolved value is not the environment value.
With `LOCALIS_PORT` set to `"0"` and the config file carrying port 8005,
resolution yields 8005, not 0; with `LOCALIS_HOST` set to the empty
string and the config file carrying a host, resolution yields the config
host, not the empty environment value. -/
theorem c5_counterexample :
    resolvePort (some "0") { port := some 8005 } = .ok 8005
    ∧ ((8005 : Int) == 0) = false
    ∧ resolveHost (some "") { host := some "10.0.0.1" } = "10.0.0.1"
    ∧ (("10.0.0.1" : String) == "") = false := by
  refine ⟨?_, ?_, ?_, ?_⟩ <;> rfl

/-- C5 (amended): for every field and every combination of present and
absent sources, resolution follows the priority environment-over-file-
over-default, with Python truthiness: an environment value set but empty
(for the port: parsing to zero) is treated as absent, the preferred
config keys for repo URL and branch are used only when non-empty while
their fallback keys are used whenever present, and a set but non-numeric
port variable makes resolution raise. -/
theorem c5_resolution_priority_amended (envR envB envH envP : Option String)
    (cfg : ConfigFile) :
    resolveRepoUrl envR cfg = repoUrlSpec envR cfg
    ∧ resolveBranch envB cfg = branchSpec envB cfg
    ∧ resolveHost envH cfg = hostSpec envH cfg
    ∧ resolvePort envP cfg = portSpec envP cfg := by
  refine ⟨?_, ?_, ?_, ?_⟩
  · cases envR <;> cases h1 : cfg.app_repo_url <;>
      simp [resolveRepoUrl, repoUrlSpec, firstTruthy, pyOrStr, h1]
  · cases envB <;> cases h1 : cfg.app_branch <;>
      simp [resolveBranch, branchSpec, firstTruthy, pyOrStr, h1]
  · cases envH <;>
      simp [resolveHost, hostSpec, firstTruthy, pyOrStr]
  · cases envP with
    | none => rfl
    | some s =>
      cases hs : pyInt? s with
      | none => simp [resolvePort, portSpec, hs]
      | some n =>
        rcases eq_or_ne n 0 with hn | hn <;> simp [resolvePort, portSpec, hs, hn]

/-- The fatal-path scenario of the specification: no environment
variables set and no config file (so `load_config` returns the empty
dictionary), with the rest of the machine healthy — every bundled-path
probe failing, a script (non-frozen) deployment, a working system git,
git subprocesses all succeeding, no `requirements.txt`, and every port
bindable. -/
def c1World : World := {}

/-- Whenever the port expression of the configuration block evaluates
without raising, `main` completes the configuration phase, whatever
happens later. -/
theorem mainRun_ok_phases_head (w : World) (ps : Int)
    (hp : resolvePort w.envPort w.cfg = .ok ps) :
    (mainRun w).phases.head? = some Phase.config := by
  unfold mainRun finishLaunch
  rw [hp]
  dsimp only
  split
  · rfl
  · split
    · split
      · rfl
      · split <;> rfl
    · split
      · split <;> rfl
      · split
        · rfl
        · split <;> rfl

/-- C1 counterexample: in the specification's fatal-path scenario (no
config file, no `LOCALIS_APP_REPO_URL`) the launcher does not fail
configuration resolution and does not exit with code 1 naming a missing
repository URL: it resolves the repository URL to the built-in
placeholder default, proceeds through every phase, and launches. -/
theorem c1_counterexample_no_config_still_launches :
    mainRun c1World =
      ⟨.launched defaultRepoUrl "main" "127.0.0.1" 8000,
       [.config, .python, .gitLookup, .sync, .deps, .port, .launch],
       [.git (.clone defaultRepoUrl "main" "install/app")]⟩
    ∧ outcomeExitCode (mainRun c1World).outcome = none := ⟨rfl, rfl⟩

/-- C1 (amended): the repository URL is resolvable in every run, because
the code supplies a built-in default: with no `LOCALIS_APP_REPO_URL` and
no repo-URL key in the config file it resolves to the placeholder
default, and configuration resolution has no failure path for the
repository URL — `main` always completes the configuration phase and
proceeds (with the port expression evaluating normally, here with
`LOCALIS_PORT` unset). -/
theorem c1_repo_url_always_resolves (envB envH : Option String)
    (ab bb hb : Option String) (pb : Option Int) (iroot : String)
    (broot : Option String) (frozen : Bool) (sysx : String)
    (fs : String → Bool) (probe : RunOutcome) (aE aAfter gE : Bool)
    (run : GitCmd → RunOutcome) (req : Bool) (pip : RunOutcome) (cb : Int → Bool) :
    resolveRepoUrl none ⟨none, none, ab, bb, hb, pb⟩ = defaultRepoUrl
    ∧ (mainRun ⟨none, envB, envH, none, ⟨none, none, ab, bb, hb, pb⟩, iroot, broot,
          frozen, sysx, fs, probe, aE, aAfter, gE, run, req, pip, cb⟩).phases.head?
        = some Phase.config := by
  constructor
  · rfl
  · exact mainRun_ok_phases_head _ (pb.getD 8000) rfl

/-- A search with the constant-false existence oracle finds nothing. -/
theorem find?_const_false (l : List String) : l.find? (fun _ => false) = none := by
  induction l with
  | nil => rfl
  | cons a t ih => simp [List.find?, ih]

/-- In script (non-frozen) mode the interpreter lookup always succeeds:
either a bundled candidate exists or the running interpreter is used. -/
theorem find_bundled_python_script_mode (ir : String) (br : Option String)
    (fs : String → Bool) (sx : String) :
    ∃ p, find_bundled_python ir br false fs sx = some p := by
  unfold find_bundled_python
  dsimp only
  split
  · exact ⟨_, rfl⟩
  · exact ⟨sx, rfl⟩

/-- When the PATH probe exits zero, the git lookup always succeeds:
either a bundled candidate exists or the command name is returned. -/
theorem find_bundled_git_probe_ok (ir : String) (br : Option String)
    (fs : String → Bool) (o e : String) :
    ∃ g, find_bundled_git ir br fs (.completed 0 o e) = some g := by
  unfold find_bundled_git
  dsimp only
  split
  · exact ⟨_, rfl⟩
  · exact ⟨"git", by simp⟩

/-- With no bundled file present and a timed-out PATH probe, the git
lookup reports absence. -/
theorem find_bundled_git_absent (ir : String) (br : Option String) :
    find_bundled_git ir br (fun _ => false) .timedOut = none := by
  unfold find_bundled_git
  dsimp only
  rw [find?_const_false]

/-- With no bundled file present, script mode falls back to the running
interpreter. -/
theorem find_bundled_python_fallback (ir : String) (br : Option String) (sx : String) :
    find_bundled_python ir br false (fun _ => false) sx = some sx := by
  unfold find_bundled_python
  dsimp only
  rw [find?_const_false]
  rfl

/-- C4: when synchronization fails, the top level of `main` is fatal
exactly when no checkout directory exists after the attempt: with the
app directory absent afterwards, `main` stops with the
repository-unavailable `LauncherError` (exit code 1) right after the
sync phase; with the app directory present afterwards, `main` logs the
warning and continues through the dependency phase with the existing
directory. -/
theorem c4_sync_failure_fatal_iff_no_checkout
    (envR envB envH : Option String) (cfg : ConfigFile) (iroot : String)
    (broot : Option String) (sysx : String) (fs : String → Bool)
    (aE gE : Bool) (run : GitCmd → RunOutcome) (req : Bool) (pip : RunOutcome)
    (cb : Int → Bool)
    (h : (clone_or_update_repo run aE gE (resolveRepoUrl envR cfg) (resolveBranch envB cfg)
            (iroot ++ "/app")).result = false) :
    (mainRun ⟨envR, envB, envH, none, cfg, iroot, broot, false, sysx, fs,
        .completed 0 "" "", aE, false, gE, run, req, pip, cb⟩
      = ⟨.fatal repoUnavailableMsg, [.config, .python, .gitLookup, .sync],
         (clone_or_update_repo run aE gE (resolveRepoUrl envR cfg) (resolveBranch envB cfg)
            (iroot ++ "/app")).trace.map Spawn.git⟩)
    ∧ outcomeExitCode (mainRun ⟨envR, envB, envH, none, cfg, iroot, broot, false, sysx, fs,
        .completed 0 "" "", aE, false, gE, run, req, pip, cb⟩).outcome = some 1
    ∧ ∃ rest,
        (mainRun ⟨envR, envB, envH, none, cfg, iroot, broot, false, sysx, fs,
            .completed 0 "" "", aE, true, gE, run, req, pip, cb⟩).phases
          = [.config, .python, .gitLookup, .sync, .warnContinue, .deps] ++ rest := by
  obtain ⟨py, hpy⟩ := find_bundled_python_script_mode iroot broot fs sysx
  obtain ⟨g, hg⟩ := find_bundled_git_probe_ok iroot broot fs "" ""
  rcases hR : clone_or_update_repo run aE gE (resolveRepoUrl envR cfg) (resolveBranch envB cfg)
      (iroot ++ "/app") with ⟨res, tr, dg⟩
  rw [hR] at h
  dsimp only at h
  subst h
  have h1 : mainRun ⟨envR, envB, envH, none, cfg, iroot, broot, false, sysx, fs,
      .completed 0 "" "", aE, false, gE, run, req, pip, cb⟩
      = ⟨.fatal repoUnavailableMsg, [.config, .python, .gitLookup, .sync],
         tr.map Spawn.git⟩ := by
    unfold mainRun
    dsimp only [resolvePort, appDirOf]
    rw [hpy, hg, hR]
    rfl
  refine ⟨by rw [h1], by rw [h1]; rfl, ?_⟩
  unfold mainRun finishLaunch
  dsimp only [resolvePort, appDirOf]
  rw [hpy, hg, hR]
  dsimp only
  cases hport : find_available_port cb (cfg.port.getD 8000) 10 with
  | error msg => exact ⟨[], by simp⟩
  | ok p => exact ⟨[.port, .launch], by simp⟩

/-- Witness for C4 at a concrete input: a first-run world whose clone
exits non-zero ends in the fatal repository-unavailable error. -/
theorem c4_witness :
    mainRun ⟨none, none, none, none, {}, "install", none, false, "python",
        fun _ => false, .completed 0 "" "", false, false, false,
        fun _ => .completed 1 "" "boom", false, .completed 0 "" "", fun _ => true⟩
      = ⟨.fatal repoUnavailableMsg, [.config, .python, .gitLookup, .sync],
         [.git (.clone defaultRepoUrl "main" "install/app")]⟩ := by
  have := (c4_sync_failure_fatal_iff_no_checkout none none none {} "install" none "python"
    (fun _ => false) false false (fun _ => .completed 1 "" "boom") false
    (.completed 0 "" "") (fun _ => true) rfl).1
  rw [this]
  rfl

/-- C7: absence of git is fatal exactly when no local checkout exists.
With git unresolvable (no bundled candidate, failed PATH probe) and no
app directory, `main` stops with the git-missing `LauncherError` (exit
code 1) before any sync, dependency or launch phase and spawns nothing;
with the app directory present, `main` takes the skip-sync warning
branch, spawns no git subprocess at all, and proceeds through the
dependency phase. -/
theorem c7_git_absent_policy (envR envB envH : Option String) (cfg : ConfigFile)
    (iroot sysx : String) (broot : Option String) (aAfter gE : Bool)
    (run : GitCmd → RunOutcome) (req : Bool) (pip : RunOutcome) (cb : Int → Bool) :
    (mainRun ⟨envR, envB, envH, none, cfg, iroot, broot, false, sysx, fun _ => false,
        .timedOut, false, aAfter, gE, run, req, pip, cb⟩
      = ⟨.fatal gitAndAppMissingMsg, [.config, .python, .gitLookup], []⟩)
    ∧ outcomeExitCode (mainRun ⟨envR, envB, envH, none, cfg, iroot, broot, false, sysx,
        fun _ => false, .timedOut, false, aAfter, gE, run, req, pip, cb⟩).outcome = some 1
    ∧ (∃ rest,
        (mainRun ⟨envR, envB, envH, none, cfg, iroot, broot, false, sysx, fun _ => false,
            .timedOut, true, aAfter, gE, run, req, pip, cb⟩).phases
          = [.config, .python, .gitLookup, .skipSync, .deps] ++ rest)
    ∧ (mainRun ⟨envR, envB, envH, none, cfg, iroot, broot, false, sysx, fun _ => false,
        .timedOut, true, aAfter, gE, run, req, pip, cb⟩).spawned.all
          (fun s => ! s.isGit) = true := by
  have h1 : mainRun ⟨envR, envB, envH, none, cfg, iroot, broot, false, sysx, fun _ => false,
      .timedOut, false, aAfter, gE, run, req, pip, cb⟩
      = ⟨.fatal gitAndAppMissingMsg, [.config, .python, .gitLookup], []⟩ := by
    unfold mainRun
    dsimp only [resolvePort]
    rw [find_bundled_python_fallback, find_bundled_git_absent]
    rfl
  refine ⟨h1, by rw [h1]; rfl, ?_, ?_⟩
  · unfold mainRun finishLaunch
    dsimp only [resolvePort]
    rw [find_bundled_python_fallback, find_bundled_git_absent]
    dsimp only
    cases hport : find_available_port cb (cfg.port.getD 8000) 10 with
    | error msg => exact ⟨[], by simp⟩
    | ok p => exact ⟨[.port, .launch], by simp⟩
  · unfold mainRun finishLaunch
    dsimp only [resolvePort]
    rw [find_bundled_python_fallback, find_bundled_git_absent]
    dsimp only
    cases hport : find_available_port cb (cfg.port.getD 8000) 10 <;>
      cases req <;>
        cases pip <;>
          simp [install_dependencies, Spawn.isGit]

/-- With no bundled file present but a clean PATH probe, the git lookup
returns the system command name. -/
theorem find_bundled_git_system (ir : String) (br : Option String) (o e : String) :
    find_bundled_git ir br (fun _ => false) (.completed 0 o e) = some "git" := by
  unfold find_bundled_git
  dsimp only
  rw [find?_const_false]
  rfl

/-- The dependency phase sits after the synchronization decision and
before the launch: whenever `deps` occurs it is preceded by a `sync` or
`skipSync` phase, and whenever `launch` occurs the `deps` phase occurred
before it. -/
def depsOrderOk (l : List Phase) : Bool :=
  (!(l.contains Phase.deps)
    || ((l.contains Phase.sync && decide (l.indexOf Phase.sync < l.indexOf Phase.deps))
        || (l.contains Phase.skipSync
            && decide (l.indexOf Phase.skipSync < l.indexOf Phase.deps))))
  && (!(l.contains Phase.launch)
    || (l.contains Phase.deps && decide (l.indexOf Phase.deps < l.indexOf Phase.launch)))

/-- C10: dependency installation runs between synchronization and launch
and never aborts the run.  A missing `requirements.txt` is success with
no subprocess; with it present, pip is run and only a zero exit is
success; the outcome and phase sequence of `main` are identical whatever
the pip outcome or the presence of `requirements.txt` (a failed or
timed-out installation only logs a warning); every run orders the
dependency phase after the sync decision and before the launch; and on a
healthy first run with `requirements.txt` present, `main` spawns exactly
the clone followed by the pip install of the checkout's requirements
file through the located interpreter. -/
theorem c10_dependency_install_policy :
    (∀ px d pip, install_dependencies px d false pip = (true, []))
    ∧ (∀ px d pip, install_dependencies px d true pip
        = (isZeroExit pip, [.pip px (d ++ "/requirements.txt")]))
    ∧ (∀ (w : World) (r1 r2 : Bool) (p1 p2 : RunOutcome),
        (mainRun { w with reqExists := r1, pipRun := p1 }).outcome
            = (mainRun { w with reqExists := r2, pipRun := p2 }).outcome
          ∧ (mainRun { w with reqExists := r1, pipRun := p1 }).phases
            = (mainRun { w with reqExists := r2, pipRun := p2 }).phases)
    ∧ (∀ w : World, depsOrderOk (mainRun w).phases = true)
    ∧ (∀ (envR envB envH : Option String) (cfg : ConfigFile) (iroot sysx : String)
          (broot : Option String) (pip : RunOutcome) (cb : Int → Bool),
        (mainRun ⟨envR, envB, envH, none, cfg, iroot, broot, false, sysx, fun _ => false,
            .completed 0 "" "", false, true, false, fun _ => .completed 0 "" "",
            true, pip, cb⟩).spawned
          = [.git (.clone (resolveRepoUrl envR cfg) (resolveBranch envB cfg)
                (iroot ++ "/app")),
             .pip sysx ((iroot ++ "/app") ++ "/requirements.txt")]) := by
  refine ⟨fun px d pip => rfl, fun px d pip => by cases pip <;> rfl, ?_, ?_, ?_⟩
  · intro w r1 r2 p1 p2
    constructor
    · unfold mainRun finishLaunch
      dsimp only [appDirOf]
      split <;> try rfl
      all_goals split <;> try rfl
      all_goals split <;> try rfl
      all_goals split <;> try rfl
      all_goals split <;> try rfl
      all_goals split <;> try rfl
    · unfold mainRun finishLaunch
      dsimp only [appDirOf]
      split <;> try rfl
      all_goals split <;> try rfl
      all_goals split <;> try rfl
      all_goals split <;> try rfl
      all_goals split <;> try rfl
      all_goals split <;> try rfl
  · intro w
    unfold mainRun finishLaunch
    split <;> try rfl
    all_goals split <;> try rfl
    all_goals split <;> try rfl
    all_goals split <;> try rfl
    all_goals split <;> try rfl
    all_goals split <;> try rfl
  · intro envR envB envH cfg iroot sysx broot pip cb
    have hcl : clone_or_update_repo (fun _ => RunOutcome.completed 0 "" "") false false
        (resolveRepoUrl envR cfg) (resolveBranch envB cfg) (iroot ++ "/app")
        = ⟨true, [.clone (resolveRepoUrl envR cfg) (resolveBranch envB cfg)
            (iroot ++ "/app")], none⟩ := rfl
    unfold mainRun finishLaunch
    dsimp only [resolvePort, appDirOf]
    rw [find_bundled_python_fallback, find_bundled_git_system, hcl]
    dsimp only
    cases hport : find_available_port cb (cfg.port.getD 8000) 10 <;>
      cases pip <;> rfl

end Localis
